import Mathlib

/-!
Verification development for the dodecahedral panorama sampler
(`src/poly_sampler/dodecahedral_sampler.py`).

Modelling conventions:

* Python floats are modelled as rationals (`ℚ`).  The floating-point
  primitives the source consumes (`np.sin`, `np.cos`, `np.tan`, square
  roots via `** 0.5` / `np.linalg.norm`, `np.arctan2`-style helpers, and
  the external `cv2.warpAffine` image transform) are collected in a
  record `FloatOps` over which every definition and theorem is
  parameterised; the claims settled here hold for every interpretation
  of those primitives, so nothing depends on their exact float values.
* Python `int(x)` and numpy `astype(int…)` truncate toward zero; this is
  `pyInt` below.  Numpy `%` with a positive modulus returns a value in
  `[0, m)`, matching `Int.emod`.  Numpy basic indexing accepts indices
  in `[-n, n)` (negative indices wrap once) and raises `IndexError`
  otherwise; this is `resolveIdx` / `npIndexRow`.  `np.zeros` raises
  `ValueError` on a negative dimension (`npZeros`).
* Fallible Python code is modelled in `Except PyErr`; raising an
  exception is `Except.error`, so an error result means the call
  produced no output.
-/

/-!
Batteries marks the `Rat` arithmetic operations `@[irreducible]`, which
blocks `decide`/`rfl` evaluation of the executable definitions below at
concrete inputs; restore the usual reducibility for them.
-/
set_option allowUnsafeReducibility true in
attribute [semireducible] Rat.mul Rat.add Rat.sub Rat.inv

/-- Python exception classes that the modelled code can raise. -/
inductive PyErr where
  | shapeValidationError
  | indexError
  | unboundLocalError
  | valueError
deriving DecidableEq, Repr

/-- Python `int(x)` / numpy `astype(int…)`: truncation toward zero. -/
def pyInt (q : ℚ) : ℤ := Int.tdiv q.num (q.den : ℤ)

/-- A 3D point, as a triple of rationals. -/
abbrev Vec3 : Type := ℚ × ℚ × ℚ

/-- An RGB colour sampled from the panorama. -/
abbrev RGB : Type := ℕ × ℕ × ℕ

/-- One RGBA canvas pixel, as stored channel order `(c0, c1, c2, c3)`;
the source writes colours with `canvas[…, 2::-1] = colors` and alpha at
channel `3`. -/
abbrev Px : Type := ℕ × ℕ × ℕ × ℕ

/-- The equirectangular panorama image: `shape = (height, width, 3)`,
with a total pixel lookup (the code only ever reads it at indices it has
already reduced modulo the shape). -/
structure EqImage where
  height : ℕ
  width : ℕ
  pixel : ℤ → ℤ → RGB

/-- An RGBA pixel buffer created by `np.zeros([h, w, 4])` and written
into by the compositing code. -/
structure Canvas where
  height : ℕ
  width : ℕ
  px : ℤ → ℤ → Px

/-- The floating-point primitives consumed by the source, kept abstract:
`pi` is `np.pi`; `sin`, `cos`, `tan`, `sqrt` model the numpy scalar
functions; `asin` and `atan2` are used by the spherical-coordinate
helpers; `warpAffine` models the external `cv2.warpAffine` applied to a
pixel buffer with a 2×3 affine matrix (given as its two rows) and a
square output size.  Every theorem below quantifies over this record. -/
structure FloatOps where
  pi : ℚ
  sin : ℚ → ℚ
  cos : ℚ → ℚ
  tan : ℚ → ℚ
  sqrt : ℚ → ℚ
  asin : ℚ → ℚ
  atan2 : ℚ → ℚ → ℚ
  warpAffine : (ℤ → ℤ → Px) → (ℚ × ℚ × ℚ) → (ℚ × ℚ × ℚ) → ℕ → ℤ → ℤ → Px

/-- Named coordinate axis, for `rotate_on_axis`. -/
inductive Axis where
  | x
  | y
  | z
deriving DecidableEq

/-- Modelled from the spec: `utils.rotate_on_axis(point, axis, angle)`
(the module `utils` is not part of the provided sources) rotates a 3D
point about a named axis by an angle in radians. -/
def rotate_on_axis (F : FloatOps) (p : Vec3) (axis : Axis) (angle : ℚ) : Vec3 :=
  let c := F.cos angle
  let s := F.sin angle
  match axis with
  | .x => (p.1, c * p.2.1 - s * p.2.2, s * p.2.1 + c * p.2.2)
  | .y => (c * p.1 + s * p.2.2, p.2.1, -s * p.1 + c * p.2.2)
  | .z => (c * p.1 - s * p.2.1, s * p.1 + c * p.2.1, p.2.2)

/-- Modelled from the spec: `utils.xyz_2_polar(unit_vector)` (not in the
provided sources) converts a 3D direction to spherical angles
`(azimuth, elevation)`. -/
def xyz_2_polar (F : FloatOps) (v : Vec3) : ℚ × ℚ :=
  (F.atan2 v.1 v.2.2, F.asin v.2.1)

/-- Modelled from the spec: `utils.polar_2_equi(phi, theta, shape)` (not
in the provided sources) maps spherical angles to fractional pixel
coordinates `(x, y)` of an equirectangular image; rows are linear in
elevation and columns in azimuth. -/
def polar_2_equi (F : FloatOps) (phi theta : ℚ) (height width : ℕ) : ℚ × ℚ :=
  ((phi / (2 * F.pi) + 1 / 2) * (width : ℚ), (theta / F.pi + 1 / 2) * (height : ℚ))

/-- Modelled from the spec: `utils.check_eq_image_shape(image)` (not in
the provided sources) fails with a shape-validation error unless the
image is a non-empty pixel grid with a 2:1 width:height ratio. -/
def check_eq_image_shape (img : EqImage) : Except PyErr Unit :=
  if 0 < img.height ∧ img.width = 2 * img.height then Except.ok () else Except.error PyErr.shapeValidationError

/-- Componentwise sum of two 3D points. -/
def vadd (a b : Vec3) : Vec3 := (a.1 + b.1, a.2.1 + b.2.1, a.2.2 + b.2.2)

/-- Scale a 3D point by a rational. -/
def vscale (k : ℚ) (a : Vec3) : Vec3 := (k * a.1, k * a.2.1, k * a.2.2)

/-- Dot product of two 3D points. -/
def vdot (a b : Vec3) : ℚ := a.1 * b.1 + a.2.1 * b.2.1 + a.2.2 * b.2.2

/-- Mean of a list of 3D points (`vertex_xyz.mean(axis=0)`). -/
def vmean (l : List Vec3) : Vec3 :=
  vscale (1 / (l.length : ℚ)) (l.foldl vadd (0, 0, 0))

/-- The fixed 12×5 face table from `DodecahedralSampler.__init__`
(lines 45–50 of the source). -/
def facesTable : List (List ℕ) :=
  [[0, 1, 2, 3, 4],
   [0, 5, 11, 6, 1], [1, 6, 10, 7, 2], [2, 7, 14, 8, 3], [3, 8, 13, 9, 4], [4, 9, 12, 5, 0],
   [15, 10, 7, 14, 19], [19, 14, 8, 13, 18], [18, 13, 9, 12, 17], [17, 12, 5, 11, 16], [16, 11, 6, 10, 15],
   [19, 18, 17, 16, 15]]

/-- Transcription of `DodecahedralSampler.get_vertices` (lines 107–152):
the 20 dodecahedron vertices.  `self.unit_edge_length` is passed in, as
it is read from the instance.  The `** 0.5` square roots and
`np.linalg.norm` go through `F.sqrt`; note that line 137 of the source
computes `(radius - y5 ** 2) ** 0.5` (not `radius ** 2`), reproduced
as-is. -/
def get_vertices (F : FloatOps) (unit_edge_length : ℚ) (radius : ℚ) : List Vec3 :=
  let top_circumradius := unit_edge_length / (2 * F.sin (F.pi / 5))
  let y0 := F.sqrt (radius ^ 2 - top_circumradius ^ 2)
  let z0 := F.sqrt (radius ^ 2 - y0 ^ 2)
  let v0 : Vec3 := (0, y0, z0)
  let ring0 := v0 :: (List.range 4).map (fun i => rotate_on_axis F v0 Axis.y (((i : ℚ) + 1) * (F.pi * 2 / 5)))
  let ratio := (F.cos (F.pi * 3 / 10) + F.sin (F.pi * 2 / 5)) / F.sin (F.pi * 2 / 5)
  let y5 := (ratio - 1) / (ratio + 1) * y0
  let z5 := F.sqrt (radius - y5 ^ 2)
  let v5 : Vec3 := (0, y5, z5)
  let ring1 := v5 :: (List.range 4).map (fun i => rotate_on_axis F v5 Axis.y (((i : ℚ) + 1) * (F.pi * 2 / 5)))
  let northern := ring0 ++ ring1
  let southern := (northern.reverse).map (fun v => ((-v.1, -v.2.1, -v.2.2) : Vec3))
  let vertices := northern ++ southern
  vertices.map (fun v =>
    let n := F.sqrt (vdot v v)
    vscale radius (vscale (1 / n) v))

/-- The immutable state built by `DodecahedralSampler.__init__`
(lines 10–67): the derived scalar constants, the face table and the
vertex list. -/
structure Sampler where
  resolution : ℤ
  unit_edge_length : ℚ
  scaled_edge_length : ℤ
  h : ℚ
  l : ℚ
  pentagon_l : ℤ
  height_to_centre : ℚ
  pentagon_h : ℤ
  circumradius : ℤ
  faces : List (List ℕ)
  vertices : List Vec3

/-- Transcription of `DodecahedralSampler.__init__` (lines 10–67). -/
def mkSampler (F : FloatOps) (resolution : ℤ) : Sampler :=
  let radius : ℚ := 1
  let unit_edge_length := (F.sqrt 5 - 1) / F.sqrt 3 * radius
  let scaled_edge_length := resolution
  let h := (scaled_edge_length : ℚ) * F.sin (F.pi / 5 * 2)
  let l := (scaled_edge_length : ℚ) * F.cos (F.pi / 5 * 2)
  let pentagon_l := pyInt (2 * l + (scaled_edge_length : ℚ))
  let height_to_centre := (scaled_edge_length : ℚ) / (2 * F.tan (F.pi / 5))
  let pentagon_h := pyInt (height_to_centre + (scaled_edge_length : ℚ) / (2 * F.sin (F.pi / 5)))
  let circumradius := pyInt ((scaled_edge_length : ℚ) / (2 * F.sin (F.pi / 5)))
  { resolution := resolution
    unit_edge_length := unit_edge_length
    scaled_edge_length := scaled_edge_length
    h := h
    l := l
    pentagon_l := pentagon_l
    height_to_centre := height_to_centre
    pentagon_h := pentagon_h
    circumradius := circumradius
    faces := facesTable
    vertices := get_vertices F unit_edge_length radius }

/-- Transcription of `DodecahedralSampler.get_is_up` (lines 81–88):
`True if (0 < face_no < 6) | (face_no == 11) else False`. -/
def get_is_up (face_no : ℤ) : Bool :=
  decide ((0 < face_no ∧ face_no < 6) ∨ face_no = 11)

/-- Transcription of `DodecahedralSampler.get_rotation` (lines 91–104).
The Python function has no `else` branch: for a `face_no` outside all
the guards the final `return rotation_offset` reads an unassigned local
variable and raises `UnboundLocalError`. -/
def get_rotation (F : FloatOps) (face_no : ℤ) : Except PyErr ℚ :=
  if face_no = 0 ∨ face_no = 11 then
    Except.ok 0
  else if 0 < face_no ∧ face_no < 6 then
    Except.ok (F.pi * 6 / 5 + ((face_no : ℚ) - 1) * (F.pi * 2 / 5))
  else if 6 ≤ face_no ∧ face_no < 11 then
    Except.ok (-F.pi * 4 / 5 - ((face_no : ℚ) - 6) * (F.pi * 2 / 5))
  else
    Except.error PyErr.unboundLocalError

/-- The two pentagon contours from `get_pentagon_coords` (lines 189–193),
after `astype(np.int32)` truncation.  The first row is the source's
"up pentagon" comment row (flat edge at image row 0), the second the
"down pentagon" row (flat edge at image row `pentagon_h`). -/
def pentagonPoly (s : Sampler) (contour_idx : Bool) : List (ℤ × ℤ) :=
  if contour_idx then
    [(pyInt s.l, s.pentagon_h),
     (pyInt ((s.pentagon_l : ℚ) - s.l), s.pentagon_h),
     (s.pentagon_l, pyInt ((s.pentagon_h : ℚ) - s.h)),
     (pyInt ((s.pentagon_l : ℚ) / 2), 0),
     (0, pyInt ((s.pentagon_h : ℚ) - s.h))]
  else
    [(pyInt s.l, 0),
     (pyInt ((s.pentagon_l : ℚ) - s.l), 0),
     (s.pentagon_l, pyInt s.h),
     (pyInt ((s.pentagon_l : ℚ) / 2), s.pentagon_h),
     (0, pyInt s.h)]

/-- Membership of an integer pixel in a convex polygon (interior or
boundary): all edge cross-products have one sign.  This models the
filled-contour rasterization `cv2.drawContours(…, thickness=-1)` for the
convex pentagon. -/
def inConvexPoly (poly : List (ℤ × ℤ)) (p : ℤ × ℤ) : Bool :=
  let edges := poly.zip (poly.drop 1 ++ poly.take 1)
  let crosses := edges.map (fun e =>
    (e.2.1 - e.1.1) * (p.2 - e.1.2) - (e.2.2 - e.1.2) * (p.1 - e.1.1))
  crosses.all (fun c => 0 ≤ c) || crosses.all (fun c => c ≤ 0)

/-- The pixel coordinates `(x, y)` of the rasterized pentagon, in the
order produced by `np.argwhere(canvas == 1)[:, ::-1]` (row-major scan of
the `pentagon_h × pentagon_l` canvas, coordinates reversed to `(x, y)`).
The contour drawn is `pentagon[int(is_up)]` (line 197). -/
def pentagonMask (s : Sampler) (is_up : Bool) : List (ℤ × ℤ) :=
  let poly := pentagonPoly s is_up
  (List.range s.pentagon_h.toNat).flatMap (fun y =>
    (List.range s.pentagon_l.toNat).filterMap (fun x =>
      if inConvexPoly poly ((x : ℤ), (y : ℤ)) then some ((x : ℤ), (y : ℤ)) else none))

/-- The raster step of `get_pentagon_coords` (lines 196–198), including
the `np.zeros([pentagon_h, pentagon_l])` allocation, which raises
`ValueError` when a dimension is negative. -/
def pentagonCoordsRaw (s : Sampler) (is_up : Bool) : Except PyErr (List (ℤ × ℤ)) :=
  if 0 ≤ s.pentagon_h ∧ 0 ≤ s.pentagon_l then
    Except.ok (pentagonMask s is_up)
  else
    Except.error PyErr.valueError

set_option linter.unusedVariables false in
/-- Transcription of `DodecahedralSampler.get_pentagon_coords`
(lines 155–217).  The `base_resolution` argument is declared exactly as
in the source signature (where the body never reads it).  `center`
subtracts `pentagon_l // 2` (Python floor division) from `x` and an
orientation-dependent truncated offset from `y`; `normalize` divides by
`pentagon_l` (numpy true division); `homogeneous` appends a constant 1.
Points are returned as coordinate lists, matching the `[N, 2]` or
`[N, 3]` numpy result rows. -/
def get_pentagon_coords (s : Sampler) (base_resolution : ℤ)
    (is_up : Bool) (center : Bool := true) (normalize : Bool := true)
    (homogeneous : Bool := false) : Except PyErr (List (List ℚ)) := do
  let coords ← pentagonCoordsRaw s is_up
  let coords :=
    if center then
      coords.map (fun p =>
        (p.1 - Int.fdiv s.pentagon_l 2,
         p.2 - (if is_up then pyInt ((s.pentagon_h : ℚ) - s.height_to_centre)
                else pyInt s.height_to_centre)))
    else coords
  let coordsQ : List (List ℚ) :=
    if normalize then
      coords.map (fun p => [(p.1 : ℚ) / (s.pentagon_l : ℚ), (p.2 : ℚ) / (s.pentagon_l : ℚ)])
    else
      coords.map (fun p => [(p.1 : ℚ), (p.2 : ℚ)])
  let coordsH := if homogeneous then coordsQ.map (fun v => v ++ [1]) else coordsQ
  pure coordsH

/-- Numpy row lookup `self.faces[face_no]`: indices in `[-12, 12)` are
accepted (negative ones wrap once), anything else raises `IndexError`. -/
def npIndexRow (faces : List (List ℕ)) (n : ℤ) : Except PyErr (List ℕ) :=
  if 0 ≤ n ∧ n < (faces.length : ℤ) then
    Except.ok (faces.getD n.toNat [])
  else if -(faces.length : ℤ) ≤ n ∧ n < 0 then
    Except.ok (faces.getD (n + faces.length).toNat [])
  else
    Except.error PyErr.indexError

/-- The rotation matrix produced by
`R.from_euler('yxz', [-phi, theta, z_rotation_offset]).as_matrix()`
(scipy, external): composition of the elementary rotations about the
`y`, `x` and `z` axes, returned as three matrix rows. -/
def eulerYXZ (F : FloatOps) (a b c : ℚ) : Vec3 × Vec3 × Vec3 :=
  let cy := F.cos a
  let sy := F.sin a
  let cx := F.cos b
  let sx := F.sin b
  let cz := F.cos c
  let sz := F.sin c
  -- rows of Rz(c) * Rx(b) * Ry(a) (extrinsic y-x-z order)
  ((cz * cy + sz * sx * sy, -sz * cx, -cz * sy + sz * sx * cy),
   (sz * cy - cz * sx * sy, cz * cx, -sz * sy - cz * sx * cy),
   (cx * sy, sx, cx * cy))

/-- Row-vector times 3×3 matrix (`xyz @ M` on one point). -/
def rowMul (p : Vec3) (m : Vec3 × Vec3 × Vec3) : Vec3 :=
  (p.1 * m.1.1 + p.2.1 * m.2.1.1 + p.2.2 * m.2.2.1,
   p.1 * m.1.2.1 + p.2.1 * m.2.1.2.1 + p.2.2 * m.2.2.2.1,
   p.1 * m.1.2.2 + p.2.1 * m.2.1.2.2 + p.2.2 * m.2.2.2.2)

/-- Transcription of `DodecahedralSampler.get_face_xyz` (lines 220–258):
face-table lookup (numpy semantics), face centre and normal, scaled
homogeneous pentagon point cloud, then the euler rotation.  The
`Except` actions occur in source order: `self.faces[face_no]`
(line 233), `get_pentagon_coords` (line 242), `get_rotation`
(line 254). -/
def get_face_xyz (F : FloatOps) (s : Sampler) (face_no : ℤ) : Except PyErr (List Vec3) := do
  let row ← npIndexRow s.faces face_no
  let vertex_xyz := row.map (fun i => s.vertices.getD i (0, 0, 0))
  let center := vmean vertex_xyz
  let norm := F.sqrt (vdot center center)
  let norm_center := vscale (1 / norm) center
  let xyz ← get_pentagon_coords s s.resolution (get_is_up face_no) true true true
  let xy_scale_factor := 2 * s.l + (s.resolution : ℚ)
  let top_circumradius := (s.resolution : ℚ) / (2 * F.sin (F.pi / 5))
  let sphere_radius := (s.resolution : ℚ) / ((F.sqrt 5 - 1) / F.sqrt 3)
  let z_scale_factor := F.sqrt (sphere_radius ^ 2 - top_circumradius ^ 2)
  let pts : List Vec3 := xyz.map (fun v =>
    (v.getD 0 0 * xy_scale_factor, v.getD 1 0 * xy_scale_factor, v.getD 2 0 * z_scale_factor))
  let angles := xyz_2_polar F norm_center
  let z_rotation_offset ← get_rotation F face_no
  let m := eulerYXZ F (-angles.1) angles.2 z_rotation_offset
  pure (pts.map (fun p => rowMul p m))

/-- The pixel indices `(row, col)` at which `get_face_rgb` samples the
panorama (lines 275–286): shape check, ray cast, spherical conversion,
azimuth offset, equirectangular mapping, then
`y.astype(int) % shape[0]` and `x.astype(int) % shape[1]`. -/
def get_face_sample_indices (F : FloatOps) (s : Sampler) (face_no : ℤ)
    (img : EqImage) (rotation_offset : ℚ) : Except PyErr (List (ℤ × ℤ)) := do
  let _ ← check_eq_image_shape img
  let xyz ← get_face_xyz F s face_no
  let ray_xyz := xyz.map (fun p =>
    let n := F.sqrt (vdot p p)
    vscale (1 / n) p)
  let angles := ray_xyz.map (fun p => xyz_2_polar F p)
  let angles := angles.map (fun a => (a.1 + rotation_offset, a.2))
  let xys := angles.map (fun a => polar_2_equi F a.1 a.2 img.height img.width)
  pure (xys.map (fun a => (Int.emod (pyInt a.2) (img.height : ℤ), Int.emod (pyInt a.1) (img.width : ℤ))))

/-- Transcription of `DodecahedralSampler.get_face_rgb` (lines 261–289):
the sampled colour list is the panorama read at the wrapped indices. -/
def get_face_rgb (F : FloatOps) (s : Sampler) (face_no : ℤ)
    (img : EqImage) (rotation_offset : ℚ) : Except PyErr (List RGB) := do
  let idxs ← get_face_sample_indices F s face_no img rotation_offset
  pure (idxs.map (fun rc => img.pixel rc.1 rc.2))

/-- Numpy basic index resolution for an axis of size `n`: indices in
`[0, n)` are kept, indices in `[-n, 0)` wrap once, anything else raises
`IndexError`. -/
def resolveIdx (i : ℤ) (n : ℕ) : Except PyErr ℤ :=
  if 0 ≤ i ∧ i < (n : ℤ) then Except.ok i
  else if -(n : ℤ) ≤ i ∧ i < 0 then Except.ok (i + (n : ℤ))
  else Except.error PyErr.indexError

/-- Allocation `np.zeros([h, w, 4], dtype=np.uint8)`; a negative
dimension raises `ValueError`. -/
def npZeros (h w : ℤ) : Except PyErr Canvas :=
  if 0 ≤ h ∧ 0 ≤ w then
    Except.ok ⟨h.toNat, w.toNat, fun _ _ => (0, 0, 0, 0)⟩
  else
    Except.error PyErr.valueError

/-- The fancy-index assignment
`canvas[pts_y + dy, pts_x + dx, 2::-1] = colors`: for each mask point in
order, resolve both indices (numpy bounds rules) and store the colour
reversed into channels 2, 1, 0, keeping the alpha channel. -/
def writeRGB (c : Canvas) (pts : List (ℤ × ℤ)) (dy dx : ℤ)
    (cols : List RGB) : Except PyErr Canvas :=
  (pts.zip cols).foldlM (fun c pc => do
    let yy ← resolveIdx (pc.1.2 + dy) c.height
    let xx ← resolveIdx (pc.1.1 + dx) c.width
    pure { c with px := (fun a b =>
      if a = yy ∧ b = xx then (pc.2.2.2, pc.2.2.1, pc.2.1, (c.px a b).2.2.2)
      else c.px a b) }) c

/-- The fancy-index assignment `canvas[pts_y + dy, pts_x + dx, 3] = 255`:
set the alpha channel to 255 at every placed point. -/
def writeAlpha (c : Canvas) (pts : List (ℤ × ℤ)) (dy dx : ℤ) : Except PyErr Canvas :=
  pts.foldlM (fun c p => do
    let yy ← resolveIdx (p.2 + dy) c.height
    let xx ← resolveIdx (p.1 + dx) c.width
    pure { c with px := (fun a b =>
      if a = yy ∧ b = xx then ((c.px a b).1, (c.px a b).2.1, (c.px a b).2.2.1, 255)
      else c.px a b) }) c

/-- The fancy-index assignment `canvas[pts_y + dy, pts_x + dx] = vals`
used by the A4 layout: store whole RGBA quadruples. -/
def writePx (c : Canvas) (pts : List (ℤ × ℤ)) (dy dx : ℤ)
    (vals : List Px) : Except PyErr Canvas :=
  (pts.zip vals).foldlM (fun c pv => do
    let yy ← resolveIdx (pv.1.2 + dy) c.height
    let xx ← resolveIdx (pv.1.1 + dx) c.width
    pure { c with px := fun a b => if a = yy ∧ b = xx then pv.2 else c.px a b }) c

/-- The fancy-index read `buffer[pts_y + dy, pts_x + dx]` used by the A4
layout to extract pixels from a rotated square canvas. -/
def readPx (c : Canvas) (pts : List (ℤ × ℤ)) (dy dx : ℤ) : Except PyErr (List Px) :=
  pts.mapM (fun p => do
    let yy ← resolveIdx (p.2 + dy) c.height
    let xx ← resolveIdx (p.1 + dx) c.width
    pure (c.px yy xx))

/-- Transcription of `DodecahedralSampler.get_face_image`
(lines 292–317): shape check, colour sampling, the (re-)lookup of the
face vertices at line 310, the raw pentagon mask, a fresh
`pentagon_h × pentagon_l` RGBA canvas, the reversed colour write and the
alpha write.  The raw mask call is `get_pentagon_coords(…,
normalize=False, homogeneous=False, center=False)`, whose value is the
raster mask itself (see `get_pentagon_coords_raw_eq`). -/
def get_face_image (F : FloatOps) (s : Sampler) (face_no : ℤ)
    (img : EqImage) (rotation_offset : ℚ) : Except PyErr Canvas := do
  let _ ← check_eq_image_shape img
  let colors ← get_face_rgb F s face_no img rotation_offset
  let _row ← npIndexRow s.faces face_no
  let xy ← pentagonCoordsRaw s (get_is_up face_no)
  let c0 ← npZeros s.pentagon_h s.pentagon_l
  let c1 ← writeRGB c0 xy 0 0 colors
  writeAlpha c1 xy 0 0


/-- One face placement of the full/half net compositors: the two
consecutive numpy statements writing the reversed colours and then the
alpha channel at the same offset mask. -/
def applyPlacement (c : Canvas) (pts : List (ℤ × ℤ)) (dy dx : ℤ)
    (cols : List RGB) : Except PyErr Canvas := do
  let c1 ← writeRGB c pts dy dx cols
  writeAlpha c1 pts dy dx

/-- Transcription of `DodecahedralSampler.unwrap` (lines 320–382): shape
check, the twelve per-face colour lists, the full-net canvas of size
`int(2·pentagon_h + h) × int(3·(pentagon_l + resolution) + l)`, the raw
up/down masks, and the thirteen placements (face 0, faces 1–5, face 11,
faces 6–10) at the truncated trigonometric offsets. -/
def unwrap (F : FloatOps) (s : Sampler) (img : EqImage)
    (rotation_offset : ℚ := 0) : Except PyErr Canvas := do
  let _ ← check_eq_image_shape img
  let colors ← (List.range 12).mapM (fun i => get_face_rgb F s (i : ℤ) img rotation_offset)
  let canvas_length := pyInt (3 * ((s.pentagon_l : ℚ) + (s.resolution : ℚ)) + s.l)
  let canvas_height := pyInt (2 * (s.pentagon_h : ℚ) + s.h)
  let c0 ← npZeros canvas_height canvas_length
  let xy_up ← pentagonCoordsRaw s true
  let xy_down ← pentagonCoordsRaw s false
  let face_0_x_offset := pyInt ((s.pentagon_l : ℚ) - s.l)
  let face_0_y_offset := s.pentagon_h
  let c1 ← applyPlacement c0 xy_down face_0_y_offset face_0_x_offset (colors.getD 0 [])
  let c2 ← (List.range 5).foldlM (fun c (num : ℕ) => do
    let rotational_offset := -F.pi / 5 - (num : ℚ) * (F.pi * 2 / 5)
    let upper_x_offset := (face_0_x_offset : ℚ) + 2 * s.height_to_centre * F.sin rotational_offset
    let upper_y_center_offset := s.height_to_centre - (s.scaled_edge_length : ℚ) / (2 * F.sin (F.pi / 5))
    let upper_y_offset := (face_0_y_offset : ℚ) + upper_y_center_offset + 2 * s.height_to_centre * F.cos rotational_offset
    applyPlacement c xy_up (pyInt upper_y_offset) (pyInt upper_x_offset) (colors.getD (1 + num) [])) c1
  let face_11_x_offset := pyInt (2 * ((s.pentagon_l : ℚ) + (s.resolution : ℚ)))
  let face_11_y_offset := pyInt s.h
  let c3 ← applyPlacement c2 xy_up face_11_y_offset face_11_x_offset (colors.getD 11 [])
  let c4 ← (List.range 5).foldlM (fun c (num : ℕ) => do
    let rotational_offset := F.pi * 1 / 5 - (num : ℚ) * (F.pi * 2 / 5)
    let lower_x_offset := (face_11_x_offset : ℚ) + 2 * s.height_to_centre * F.sin rotational_offset
    let lower_y_center_offset := s.height_to_centre - (s.scaled_edge_length : ℚ) / (2 * F.sin (F.pi / 5))
    let lower_y_offset := (face_11_y_offset : ℚ) - lower_y_center_offset - 2 * s.height_to_centre * F.cos rotational_offset
    applyPlacement c xy_down (pyInt lower_y_offset) (pyInt lower_x_offset) (colors.getD (6 + num) [])) c3
  pure c4

/-- Transcription of `DodecahedralSampler.half_unwrap` (lines 385–448):
two canvases of size `int(2·pentagon_h + h) × int(2·pentagon_l +
resolution)`; face 0 and faces 1–5 go to the lower canvas, face 11 and
faces 6–10 to the upper canvas, with face 11 at offset
`(int(h), int(l + resolution))`. -/
def half_unwrap (F : FloatOps) (s : Sampler) (img : EqImage)
    (rotation_offset : ℚ := 0) : Except PyErr (Canvas × Canvas) := do
  let _ ← check_eq_image_shape img
  let colors ← (List.range 12).mapM (fun i => get_face_rgb F s (i : ℤ) img rotation_offset)
  let canvas_length := pyInt (2 * (s.pentagon_l : ℚ) + (s.resolution : ℚ))
  let canvas_height := pyInt (2 * (s.pentagon_h : ℚ) + s.h)
  let canvas_upper ← npZeros canvas_height canvas_length
  let canvas_lower ← npZeros canvas_height canvas_length
  let xy_up ← pentagonCoordsRaw s true
  let xy_down ← pentagonCoordsRaw s false
  let face_0_x_offset := pyInt ((s.pentagon_l : ℚ) - s.l)
  let face_0_y_offset := s.pentagon_h
  let lower1 ← applyPlacement canvas_lower xy_down face_0_y_offset face_0_x_offset (colors.getD 0 [])
  let lower2 ← (List.range 5).foldlM (fun c (num : ℕ) => do
    let rotational_offset := -F.pi / 5 - (num : ℚ) * (F.pi * 2 / 5)
    let upper_x_offset := (face_0_x_offset : ℚ) + 2 * s.height_to_centre * F.sin rotational_offset
    let upper_y_center_offset := s.height_to_centre - (s.scaled_edge_length : ℚ) / (2 * F.sin (F.pi / 5))
    let upper_y_offset := (face_0_y_offset : ℚ) + upper_y_center_offset + 2 * s.height_to_centre * F.cos rotational_offset
    applyPlacement c xy_up (pyInt upper_y_offset) (pyInt upper_x_offset) (colors.getD (1 + num) [])) lower1
  let face_11_x_offset := pyInt (s.l + (s.resolution : ℚ))
  let face_11_y_offset := pyInt s.h
  let upper1 ← applyPlacement canvas_upper xy_up face_11_y_offset face_11_x_offset (colors.getD 11 [])
  let upper2 ← (List.range 5).foldlM (fun c (num : ℕ) => do
    let rotational_offset := F.pi * 1 / 5 - (num : ℚ) * (F.pi * 2 / 5)
    let lower_x_offset := (face_11_x_offset : ℚ) + 2 * s.height_to_centre * F.sin rotational_offset
    let lower_y_center_offset := s.height_to_centre - (s.scaled_edge_length : ℚ) / (2 * F.sin (F.pi / 5))
    let lower_y_offset := (face_11_y_offset : ℚ) - lower_y_center_offset - 2 * s.height_to_centre * F.cos rotational_offset
    applyPlacement c xy_down (pyInt lower_y_offset) (pyInt lower_x_offset) (colors.getD (6 + num) [])) upper1
  pure (lower2, upper2)

/-- The documented matrix of `cv2.getRotationMatrix2D(center, angle,
scale)` (external): `α = scale·cos(angle·π/180)`,
`β = scale·sin(angle·π/180)`, rows
`(α, β, (1−α)·cx − β·cy)` and `(−β, α, β·cx + (1−α)·cy)`. -/
def getRotationMatrix2D (F : FloatOps) (center : ℚ × ℚ) (angle scale : ℚ) :
    (ℚ × ℚ × ℚ) × (ℚ × ℚ × ℚ) :=
  let a := scale * F.cos (angle * F.pi / 180)
  let b := scale * F.sin (angle * F.pi / 180)
  ((a, b, (1 - a) * center.1 - b * center.2),
   (-b, a, b * center.1 + (1 - a) * center.2))

/-- Transcription of the public method
`DodecahedralSampler.rotate_face_rgb` (lines 450–470): a fresh square
`2·circumradius` canvas, the pentagon placed with orientation-dependent
padding so its centroid sits at the canvas centre, colours and alpha
written, then the `cv2.warpAffine` rotation about the canvas centre. -/
def rotate_face_rgb (F : FloatOps) (s : Sampler) (rgb : List RGB)
    (rotation_deg : ℚ) (is_up : Bool) : Except PyErr Canvas := do
  let padded_rgb ← npZeros (2 * s.circumradius) (2 * s.circumradius)
  let padding_top : ℤ := if is_up then 0 else pyInt ((s.circumradius : ℚ) - s.height_to_centre)
  let padding_left : ℤ := pyInt ((s.circumradius : ℚ) - (s.pentagon_l : ℚ) / 2)
  let xy ← pentagonCoordsRaw s is_up
  let p1 ← writeRGB padded_rgb xy padding_top padding_left rgb
  let p2 ← writeAlpha p1 xy padding_top padding_left
  let m := getRotationMatrix2D F ((s.circumradius : ℚ), (s.circumradius : ℚ)) rotation_deg 1
  pure ⟨(2 * s.circumradius).toNat, (2 * s.circumradius).toNat,
        F.warpAffine p2.px m.1 m.2 (2 * s.circumradius).toNat⟩

/-- Transcription of the helper function `rotate_face_rgb` nested inside
`a4_optimised_unwrap` (lines 488–508), whose body repeats the public
method line for line. -/
def a4_rotate_face_rgb (F : FloatOps) (s : Sampler) (rgb : List RGB)
    (rotation_deg : ℚ) (is_up : Bool) : Except PyErr Canvas := do
  let padded_rgb ← npZeros (2 * s.circumradius) (2 * s.circumradius)
  let padding_top : ℤ := if is_up then 0 else pyInt ((s.circumradius : ℚ) - s.height_to_centre)
  let padding_left : ℤ := pyInt ((s.circumradius : ℚ) - (s.pentagon_l : ℚ) / 2)
  let xy ← pentagonCoordsRaw s is_up
  let p1 ← writeRGB padded_rgb xy padding_top padding_left rgb
  let p2 ← writeAlpha p1 xy padding_top padding_left
  let m := getRotationMatrix2D F ((s.circumradius : ℚ), (s.circumradius : ℚ)) rotation_deg 1
  pure ⟨(2 * s.circumradius).toNat, (2 * s.circumradius).toNat,
        F.warpAffine p2.px m.1 m.2 (2 * s.circumradius).toNat⟩

/-- Transcription of `DodecahedralSampler.a4_optimised_unwrap`
(lines 473–605): shape check, per-face colours, the A4 canvas, and the
twelve rotated-face placements with the hand-tuned per-face offset,
angle and orientation table; each placement extracts whole RGBA pixels
from the rotated square canvas and stores them at the destination
mask. -/
def a4_optimised_unwrap (F : FloatOps) (s : Sampler) (img : EqImage)
    (rotation_offset : ℚ := 0) : Except PyErr Canvas := do
  let _ ← check_eq_image_shape img
  let colors ← (List.range 12).mapM (fun i => get_face_rgb F s (i : ℤ) img rotation_offset)
  let canvas_length := pyInt (3 * ((s.pentagon_l : ℚ) + (s.scaled_edge_length : ℚ)) + s.l)
  let canvas_height := pyInt (2 * (s.pentagon_h : ℚ) + s.h)
  let c0 ← npZeros canvas_height canvas_length
  let xy_up ← pentagonCoordsRaw s true
  let xy_down ← pentagonCoordsRaw s false
  let padding_top := pyInt ((s.circumradius : ℚ) - s.height_to_centre)
  let padding_left := pyInt ((s.circumradius : ℚ) - (s.pentagon_l : ℚ) / 2)
  let face_0_x_offset := pyInt (2 * (s.pentagon_l : ℚ) + (s.scaled_edge_length : ℚ) - s.l)
  let face_0_y_offset := pyInt ((s.pentagon_h : ℚ) + s.h)
  let rc0 ← a4_rotate_face_rgb F s (colors.getD 0 []) 0 (get_is_up 0)
  let vals0 ← readPx rc0 xy_down padding_top padding_left
  let c1 ← writePx c0 xy_down face_0_y_offset face_0_x_offset vals0
  let c2 ← (List.range 5).foldlM (fun c (num : ℕ) => do
    let face := 1 + num
    let rotational_offset : ℚ := -72 + 36 * (num : ℚ)
    let offs : ℤ × ℤ :=
      if face = 1 then
        (face_0_y_offset, pyInt ((face_0_x_offset : ℚ) - 3 * (s.pentagon_l : ℚ) / 2 + s.l))
      else if face = 2 then
        (pyInt ((face_0_y_offset : ℚ) - s.h), pyInt ((face_0_x_offset : ℚ) - (s.pentagon_l : ℚ) + s.l))
      else if face = 3 then
        (pyInt ((face_0_y_offset : ℚ) - (s.pentagon_h : ℚ)), face_0_x_offset)
      else if face = 4 then
        (pyInt ((face_0_y_offset : ℚ) - s.h), pyInt ((face_0_x_offset : ℚ) + (s.pentagon_l : ℚ) - s.l))
      else
        (face_0_y_offset, pyInt ((face_0_x_offset : ℚ) + 3 * (s.pentagon_l : ℚ) / 2 - s.l))
    let rc ← a4_rotate_face_rgb F s (colors.getD face []) rotational_offset (get_is_up (face : ℤ))
    let rotated_is_up := (num + 1) % 2 = 1
    if rotated_is_up then do
      let vals ← readPx rc xy_up 0 padding_left
      writePx c xy_up offs.1 offs.2 vals
    else do
      let vals ← readPx rc xy_down padding_top padding_left
      writePx c xy_down offs.1 offs.2 vals) c1
  let c3 ← (List.range 6).foldlM (fun c (num : ℕ) => do
    let face := 6 + num
    let entry : ℚ × ℤ × ℤ × Bool :=
      if face = 6 then
        (252, pyInt ((face_0_y_offset : ℚ) - s.h - (s.pentagon_h : ℚ)),
         pyInt ((face_0_x_offset : ℚ) - (s.pentagon_l : ℚ) + s.l), true)
      else if face = 7 then
        (108, pyInt ((face_0_y_offset : ℚ) - s.h - (s.pentagon_h : ℚ)),
         pyInt ((face_0_x_offset : ℚ) + (s.pentagon_l : ℚ) - s.l), true)
      else if face = 8 then
        (36, pyInt ((face_0_y_offset : ℚ) - (s.pentagon_h : ℚ)),
         pyInt ((face_0_x_offset : ℚ) + (s.pentagon_l : ℚ) + (s.scaled_edge_length : ℚ)), true)
      else if face = 9 then
        (0, pyInt ((face_0_y_offset : ℚ) - s.h),
         pyInt ((face_0_x_offset : ℚ) - 3 * s.l - 3 * (s.scaled_edge_length : ℚ)), false)
      else if face = 10 then
        (324, pyInt ((face_0_y_offset : ℚ) - (s.pentagon_h : ℚ)),
         pyInt ((face_0_x_offset : ℚ) - 2 * s.l - 2 * (s.scaled_edge_length : ℚ)), true)
      else
        (324, pyInt ((face_0_y_offset : ℚ) - s.h - (s.pentagon_h : ℚ)),
         pyInt ((face_0_x_offset : ℚ) - 3 * s.l - 5 / 2 * (s.scaled_edge_length : ℚ)), false)
    let rc ← a4_rotate_face_rgb F s (colors.getD face []) entry.1 (get_is_up (face : ℤ))
    if entry.2.2.2 then do
      let vals ← readPx rc xy_up 0 padding_left
      writePx c xy_up entry.2.1 entry.2.2.1 vals
    else do
      let vals ← readPx rc xy_down padding_top padding_left
      writePx c xy_down entry.2.1 entry.2.2.1 vals) c2
  pure c3

/-- A concrete interpretation of the floating-point primitives, used to
instantiate the universally quantified theorems at executable inputs. -/
def F0 : FloatOps :=
  { pi := 3, sin := fun _ => 1 / 2, cos := fun _ => 0, tan := fun _ => 2,
    sqrt := fun _ => 1, asin := fun _ => 0, atan2 := fun _ _ => 0,
    warpAffine := fun px _ _ _ => px }

/-- A concrete sampler at resolution 2 under `F0`. -/
def s0 : Sampler := mkSampler F0 2

/-- A concrete panorama of valid 2:1 shape (2 rows × 4 columns). -/
def img0 : EqImage := ⟨2, 4, fun _ _ => (5, 6, 7)⟩

/-- A concrete panorama whose shape fails validation (2 rows ×
3 columns, not a 2:1 ratio). -/
def imgBad : EqImage := ⟨2, 3, fun _ _ => (5, 6, 7)⟩

/-- The height and width of the canvas produced by `unwrap` (projecting
away the pixel contents). -/
def unwrapDims (F : FloatOps) (s : Sampler) (img : EqImage) (ro : ℚ) : Except PyErr (ℕ × ℕ) :=
  (unwrap F s img ro).map (fun c => (c.height, c.width))

/-- The concrete sample-index list produced for face 0 of `s0` on
`img0` with zero rotation offset. -/
def c4idxs : List (ℤ × ℤ) := [(1, 2), (1, 2), (1, 2), (1, 2)]

/-- The exception the per-face operations raise for a face index outside
0–11: `IndexError` when the numpy face-table lookup itself is out of
range (index ≥ 12 or < −12), otherwise (−12 ≤ index ≤ −1, where numpy
negative indexing silently wraps the lookup) the `UnboundLocalError`
raised by `get_rotation`. -/
def invalid_face_err (n : ℤ) : PyErr :=
  if -12 ≤ n ∧ n < 12 then PyErr.unboundLocalError else PyErr.indexError

/-- One call to a projection/render method of the sampler, with its
inputs. -/
inductive OpCall where
  | pentagon (base_resolution : ℤ) (is_up center normalize homogeneous : Bool)
  | faceXyz (face_no : ℤ)
  | faceRgb (face_no : ℤ) (img : EqImage) (ro : ℚ)
  | faceImage (face_no : ℤ) (img : EqImage) (ro : ℚ)
  | unwrapFull (img : EqImage) (ro : ℚ)
  | unwrapHalf (img : EqImage) (ro : ℚ)
  | unwrapA4 (img : EqImage) (ro : ℚ)
  | rotateFace (rgb : List RGB) (deg : ℚ) (is_up : Bool)

/-- The result of one sampler method call. -/
inductive OpResult where
  | coords : Except PyErr (List (List ℚ)) → OpResult
  | xyz : Except PyErr (List Vec3) → OpResult
  | rgb : Except PyErr (List RGB) → OpResult
  | image : Except PyErr Canvas → OpResult
  | canvas : Except PyErr Canvas → OpResult
  | canvasPair : Except PyErr (Canvas × Canvas) → OpResult

/-- Dispatch one method call on the sampler. -/
def runOp (F : FloatOps) (s : Sampler) : OpCall → OpResult
  | .pentagon b u c n h => .coords (get_pentagon_coords s b u c n h)
  | .faceXyz n => .xyz (get_face_xyz F s n)
  | .faceRgb n img ro => .rgb (get_face_rgb F s n img ro)
  | .faceImage n img ro => .image (get_face_image F s n img ro)
  | .unwrapFull img ro => .canvas (unwrap F s img ro)
  | .unwrapHalf img ro => .canvasPair (half_unwrap F s img ro)
  | .unwrapA4 img ro => .canvas (a4_optimised_unwrap F s img ro)
  | .rotateFace rgb deg u => .canvas (rotate_face_rgb F s rgb deg u)

/-- A method call returns its result together with the sampler state
after the call; no method of the source assigns any instance attribute
(every `self.… = …` assignment sits in `__init__`), so the state after
the call is the state before it. -/
def applyOp (F : FloatOps) (s : Sampler) (c : OpCall) : OpResult × Sampler :=
  (runOp F s c, s)

/-- Run a sequence of method calls, threading the sampler state. -/
def runOps (F : FloatOps) (s : Sampler) (cs : List OpCall) : Sampler :=
  cs.foldl (fun s c => (applyOp F s c).2) s

/-- The pixel buffers targeted by the in-place numpy array assignments
of the source: the panorama itself, and the buffers each operation
freshly allocates (the rasterizer canvas of line 196 and its `coords`
array, the `xyz` point cloud, the `phi` angle array, the face-image
canvas of line 313, the net canvases of lines 342/407/408/518 and the
padded square canvas of lines 451/489). -/
inductive Buf where
  | pano
  | rasterCanvas
  | coords
  | xyz
  | phi
  | faceCanvas
  | netCanvas
  | lowerCanvas
  | upperCanvas
  | paddedRgb
  | a4Canvas
deriving DecidableEq

/-- Assignment targets of `get_pentagon_coords`: the contour fill into
the fresh raster canvas (line 197) and, when centering, the two
in-place subtractions on the fresh `coords` array (lines 202, 204/206).
The `normalize` division (line 210) creates a new array and is not an
in-place write. -/
def pentagon_write_trace (center : Bool) : List Buf :=
  [Buf.rasterCanvas] ++ (if center then [Buf.coords, Buf.coords] else [])

/-- Assignment targets of `get_face_xyz`: its pentagon call (line 242,
`center=True`) plus the two in-place scalings of the fresh `xyz` array
(lines 245, 250). -/
def face_xyz_write_trace : List Buf :=
  pentagon_write_trace true ++ [Buf.xyz, Buf.xyz]

/-- Assignment targets of `get_face_rgb`: those of `get_face_xyz` plus
`phi += rotation_offset` (line 283) on the fresh angle array; the ray
normalisation (line 279) and the sampling read (line 286) allocate new
arrays. -/
def face_rgb_write_trace : List Buf :=
  face_xyz_write_trace ++ [Buf.phi]

/-- Assignment targets of `get_face_image`: colour sampling, the raw
pentagon mask (line 311, `center=False`), and the two writes into the
fresh face canvas (lines 314, 315). -/
def face_image_write_trace : List Buf :=
  face_rgb_write_trace ++ pentagon_write_trace false ++ [Buf.faceCanvas, Buf.faceCanvas]

/-- Assignment targets of `unwrap`: twelve colour samplings (line 337),
the two raw masks (lines 345, 346), and two writes into the fresh net
canvas per face placement (lines 353/354, 363/364, 369/370,
379/380). -/
def unwrap_write_trace : List Buf :=
  (List.range 12).flatMap (fun _ => face_rgb_write_trace) ++
  pentagon_write_trace false ++ pentagon_write_trace false ++
  (List.range 12).flatMap (fun _ => [Buf.netCanvas, Buf.netCanvas])

/-- Assignment targets of `half_unwrap` (lines 402–446): as for
`unwrap`, with six placements on each of the two fresh canvases. -/
def half_unwrap_write_trace : List Buf :=
  (List.range 12).flatMap (fun _ => face_rgb_write_trace) ++
  pentagon_write_trace false ++ pentagon_write_trace false ++
  (List.range 6).flatMap (fun _ => [Buf.lowerCanvas, Buf.lowerCanvas]) ++
  (List.range 6).flatMap (fun _ => [Buf.upperCanvas, Buf.upperCanvas])

/-- Assignment targets of `rotate_face_rgb` (both copies): the raw mask
(lines 459/497) and the two writes into the fresh padded square canvas
(lines 463/464, 501/502); `cv2.warpAffine` returns a new buffer. -/
def rotate_face_write_trace : List Buf :=
  pentagon_write_trace false ++ [Buf.paddedRgb, Buf.paddedRgb]

/-- Assignment targets of `a4_optimised_unwrap` (lines 513–602): twelve
colour samplings, the two raw masks, and per face one rotated-face
helper call followed by a single whole-RGBA write into the fresh A4
canvas (the `rotated_rgba` extraction is a read that allocates a new
array). -/
def a4_write_trace : List Buf :=
  (List.range 12).flatMap (fun _ => face_rgb_write_trace) ++
  pentagon_write_trace false ++ pentagon_write_trace false ++
  (List.range 12).flatMap (fun _ => rotate_face_write_trace ++ [Buf.a4Canvas])

/-- The buffers freshly allocated inside the operations (every `Buf`
except the panorama). -/
def fresh_bufs : List Buf :=
  [Buf.rasterCanvas, Buf.coords, Buf.xyz, Buf.phi, Buf.faceCanvas,
   Buf.netCanvas, Buf.lowerCanvas, Buf.upperCanvas, Buf.paddedRgb, Buf.a4Canvas]

/-- With `center`, `normalize` and `homogeneous` all false,
`get_pentagon_coords` returns exactly the raster mask coordinates
(as rational coordinate lists). -/
theorem get_pentagon_coords_raw_eq (s : Sampler) (b : ℤ) (u : Bool) :
    get_pentagon_coords s b u false false false =
      (pentagonCoordsRaw s u).map (List.map (fun p => [(p.1 : ℚ), (p.2 : ℚ)])) := by
  unfold get_pentagon_coords
  cases h : pentagonCoordsRaw s u <;> simp [Except.map, h]

@[simp]
theorem pyBind_ok {α β : Type} (a : α) (f : α → Except PyErr β) :
    (Except.ok a >>= f) = f a := rfl

@[simp]
theorem pyBind_error {α β : Type} (e : PyErr) (f : α → Except PyErr β) :
    ((Except.error e : Except PyErr α) >>= f) = Except.error e := rfl

@[simp]
theorem pyPure_eq_ok {α : Type} (a : α) : (pure a : Except PyErr α) = Except.ok a := rfl

theorem except_ok_of_bind {α β : Type} {x : Except PyErr α}
    {f : α → Except PyErr β} {b : β} (h : (x >>= f) = Except.ok b) :
    ∃ a, x = Except.ok a ∧ f a = Except.ok b := by
  cases x with
  | error e => simp at h
  | ok a => exact ⟨a, rfl, h⟩

theorem check_eq_image_shape_ok {img : EqImage} {u : Unit}
    (h : check_eq_image_shape img = Except.ok u) :
    0 < img.height ∧ img.width = 2 * img.height := by
  unfold check_eq_image_shape at h
  by_cases hc : 0 < img.height ∧ img.width = 2 * img.height
  · exact hc
  · simp [hc] at h

/-- Claim C6: for every constructed sampler, the face table equals the
fixed 12×5 table element for element, and consequently there are exactly
12 faces, each listing exactly 5 distinct vertex indices, all smaller
than 20. -/
theorem sampler_faces_table (F : FloatOps) (r : ℤ) :
    (mkSampler F r).faces =
      [[0, 1, 2, 3, 4],
       [0, 5, 11, 6, 1], [1, 6, 10, 7, 2], [2, 7, 14, 8, 3], [3, 8, 13, 9, 4], [4, 9, 12, 5, 0],
       [15, 10, 7, 14, 19], [19, 14, 8, 13, 18], [18, 13, 9, 12, 17], [17, 12, 5, 11, 16], [16, 11, 6, 10, 15],
       [19, 18, 17, 16, 15]] ∧
    (mkSampler F r).faces.length = 12 ∧
    ((mkSampler F r).faces.all
      (fun f => f.length == 5 && f.dedup.length == 5 && f.all (fun v => decide (v < 20)))) = true := by
  have hf : (mkSampler F r).faces = facesTable := rfl
  refine ⟨rfl, rfl, ?_⟩
  rw [hf]
  decide

/-- Claim C9: the output of `get_pentagon_coords` does not depend on its
`base_resolution` argument; with the other arguments fixed, any two
values give identical results (the rasterized pentagon is controlled
entirely by the constants the sampler fixed at construction). -/
theorem get_pentagon_coords_ignores_base_resolution (s : Sampler) (b1 b2 : ℤ)
    (is_up center normalize homogeneous : Bool) :
    get_pentagon_coords s b1 is_up center normalize homogeneous =
      get_pentagon_coords s b2 is_up center normalize homogeneous := rfl

/-- Claim C10: the public method `rotate_face_rgb` and the helper
function of the same name nested inside `a4_optimised_unwrap` compute
the same function of the colour buffer, rotation angle and orientation
flag. -/
theorem rotate_face_rgb_method_eq_nested (F : FloatOps) (s : Sampler)
    (rgb : List RGB) (rotation_deg : ℚ) (is_up : Bool) :
    rotate_face_rgb F s rgb rotation_deg is_up =
      a4_rotate_face_rgb F s rgb rotation_deg is_up := rfl

/-- Claim C3: when the panorama's shape is not a valid non-empty 2:1
equirectangular grid, every sampling/unwrapping operation fails with the
shape-validation error — the shape check is the first action of each
operation, so no sampling happens and no output buffer is produced. -/
theorem shape_validation_aborts_all (F : FloatOps) (s : Sampler) (img : EqImage)
    (face_no : ℤ) (rotation_offset : ℚ)
    (hbad : ¬(0 < img.height ∧ img.width = 2 * img.height)) :
    get_face_rgb F s face_no img rotation_offset = Except.error PyErr.shapeValidationError ∧
    get_face_image F s face_no img rotation_offset = Except.error PyErr.shapeValidationError ∧
    unwrap F s img rotation_offset = Except.error PyErr.shapeValidationError ∧
    half_unwrap F s img rotation_offset = Except.error PyErr.shapeValidationError ∧
    a4_optimised_unwrap F s img rotation_offset = Except.error PyErr.shapeValidationError := by
  have hchk : check_eq_image_shape img = Except.error PyErr.shapeValidationError := by
    simp [check_eq_image_shape, hbad]
  refine ⟨?_, ?_, ?_, ?_, ?_⟩ <;>
    simp [get_face_rgb, get_face_sample_indices, get_face_image, unwrap,
          half_unwrap, a4_optimised_unwrap, hchk]


/-- Witness for C3 at a concrete invalid image. -/
theorem shape_validation_aborts_all_witness :
    get_face_rgb F0 s0 0 imgBad 0 = Except.error PyErr.shapeValidationError ∧
    get_face_image F0 s0 0 imgBad 0 = Except.error PyErr.shapeValidationError ∧
    unwrap F0 s0 imgBad 0 = Except.error PyErr.shapeValidationError ∧
    half_unwrap F0 s0 imgBad 0 = Except.error PyErr.shapeValidationError ∧
    a4_optimised_unwrap F0 s0 imgBad 0 = Except.error PyErr.shapeValidationError :=
  shape_validation_aborts_all F0 s0 imgBad 0 0 (by decide)

theorem foldlM_canvas_dims {α : Type} (f : Canvas → α → Except PyErr Canvas)
    (hf : ∀ c a c', f c a = Except.ok c' → c'.height = c.height ∧ c'.width = c.width) :
    ∀ (l : List α) (c c' : Canvas), l.foldlM f c = Except.ok c' →
      c'.height = c.height ∧ c'.width = c.width := by
  intro l
  induction l with
  | nil =>
    intro c c' h
    simp [List.foldlM] at h
    rw [h]
    exact ⟨rfl, rfl⟩
  | cons a t ih =>
    intro c c' h
    rw [List.foldlM_cons] at h
    obtain ⟨c1, ha, ht⟩ := except_ok_of_bind h
    obtain ⟨h1, h2⟩ := hf c a c1 ha
    obtain ⟨h3, h4⟩ := ih c1 c' ht
    exact ⟨h3.trans h1, h4.trans h2⟩

theorem writeRGB_dims {c : Canvas} {pts : List (ℤ × ℤ)} {dy dx : ℤ}
    {cols : List RGB} {c' : Canvas} (h : writeRGB c pts dy dx cols = Except.ok c') :
    c'.height = c.height ∧ c'.width = c.width := by
  unfold writeRGB at h
  refine foldlM_canvas_dims _ ?_ _ _ _ h
  intro c a c' hstep
  obtain ⟨yy, _, hstep⟩ := except_ok_of_bind hstep
  obtain ⟨xx, _, hstep⟩ := except_ok_of_bind hstep
  simp at hstep
  rw [← hstep]
  exact ⟨rfl, rfl⟩

theorem writeAlpha_dims {c : Canvas} {pts : List (ℤ × ℤ)} {dy dx : ℤ}
    {c' : Canvas} (h : writeAlpha c pts dy dx = Except.ok c') :
    c'.height = c.height ∧ c'.width = c.width := by
  unfold writeAlpha at h
  refine foldlM_canvas_dims _ ?_ _ _ _ h
  intro c a c' hstep
  obtain ⟨yy, _, hstep⟩ := except_ok_of_bind hstep
  obtain ⟨xx, _, hstep⟩ := except_ok_of_bind hstep
  simp at hstep
  rw [← hstep]
  exact ⟨rfl, rfl⟩

theorem writePx_dims {c : Canvas} {pts : List (ℤ × ℤ)} {dy dx : ℤ}
    {vals : List Px} {c' : Canvas} (h : writePx c pts dy dx vals = Except.ok c') :
    c'.height = c.height ∧ c'.width = c.width := by
  unfold writePx at h
  refine foldlM_canvas_dims _ ?_ _ _ _ h
  intro c a c' hstep
  obtain ⟨yy, _, hstep⟩ := except_ok_of_bind hstep
  obtain ⟨xx, _, hstep⟩ := except_ok_of_bind hstep
  simp at hstep
  rw [← hstep]
  exact ⟨rfl, rfl⟩

theorem applyPlacement_dims {c : Canvas} {pts : List (ℤ × ℤ)} {dy dx : ℤ}
    {cols : List RGB} {c' : Canvas}
    (h : applyPlacement c pts dy dx cols = Except.ok c') :
    c'.height = c.height ∧ c'.width = c.width := by
  unfold applyPlacement at h
  obtain ⟨c1, h1, h2⟩ := except_ok_of_bind h
  obtain ⟨a1, a2⟩ := writeRGB_dims h1
  obtain ⟨b1, b2⟩ := writeAlpha_dims h2
  exact ⟨b1.trans a1, b2.trans a2⟩

theorem npZeros_ok {h w : ℤ} {c : Canvas} (hz : npZeros h w = Except.ok c) :
    c.height = h.toNat ∧ c.width = w.toNat ∧ 0 ≤ h ∧ 0 ≤ w := by
  unfold npZeros at hz
  by_cases hc : 0 ≤ h ∧ 0 ≤ w
  · simp [hc] at hz
    rw [← hz]
    exact ⟨rfl, rfl, hc.1, hc.2⟩
  · simp [hc] at hz

/-- Dimension projection of the full unwrap: auxiliary lemma feeding the
C5 theorem below. -/
theorem unwrap_ok_dims_aux (F : FloatOps) (r : ℤ) (img : EqImage)
    (rotation_offset : ℚ) (c : Canvas)
    (hok : unwrap F (mkSampler F r) img rotation_offset = Except.ok c) :
    (c.height : ℤ) = pyInt (2 * ((mkSampler F r).pentagon_h : ℚ) + (mkSampler F r).h) ∧
    (c.width : ℤ) = pyInt (3 * (((mkSampler F r).pentagon_l : ℚ) + (r : ℚ)) + (mkSampler F r).l) := by
  unfold unwrap at hok
  obtain ⟨u, hchk, hok⟩ := except_ok_of_bind hok
  obtain ⟨colors, hcol, hok⟩ := except_ok_of_bind hok
  obtain ⟨c0, hz, hok⟩ := except_ok_of_bind hok
  obtain ⟨xy_up, hup, hok⟩ := except_ok_of_bind hok
  obtain ⟨xy_down, hdown, hok⟩ := except_ok_of_bind hok
  obtain ⟨c1, hp1, hok⟩ := except_ok_of_bind hok
  obtain ⟨c2, hp2, hok⟩ := except_ok_of_bind hok
  obtain ⟨c3, hp3, hok⟩ := except_ok_of_bind hok
  obtain ⟨c4, hp4, hok⟩ := except_ok_of_bind hok
  simp at hok
  subst hok
  obtain ⟨z1, z2, z3, z4⟩ := npZeros_ok hz
  obtain ⟨d11, d12⟩ := applyPlacement_dims hp1
  obtain ⟨d21, d22⟩ :=
    foldlM_canvas_dims _ (fun cc num cc' hcc => applyPlacement_dims hcc) _ _ _ hp2
  obtain ⟨d31, d32⟩ := applyPlacement_dims hp3
  obtain ⟨d41, d42⟩ :=
    foldlM_canvas_dims _ (fun cc num cc' hcc => applyPlacement_dims hcc) _ _ _ hp4
  constructor
  · rw [d41, d31, d21, d11, z1]
    exact Int.toNat_of_nonneg z3
  · rw [d42, d32, d22, d12, z2]
    exact Int.toNat_of_nonneg z4


/-- Claim C5: for every constructed sampler and every successful call,
the canvas returned by `unwrap` has exactly height
`int(2·pentagon_h + h)` and width
`int(3·(pentagon_l + resolution) + l)` in terms of the constants derived
from the construction resolution. -/
theorem unwrap_canvas_dims (F : FloatOps) (r : ℤ) (img : EqImage)
    (rotation_offset : ℚ) (d : ℕ × ℕ)
    (hok : unwrapDims F (mkSampler F r) img rotation_offset = Except.ok d) :
    (d.1 : ℤ) = pyInt (2 * ((mkSampler F r).pentagon_h : ℚ) + (mkSampler F r).h) ∧
    (d.2 : ℤ) = pyInt (3 * (((mkSampler F r).pentagon_l : ℚ) + (r : ℚ)) + (mkSampler F r).l) := by
  unfold unwrapDims at hok
  cases hu : unwrap F (mkSampler F r) img rotation_offset with
  | error e => rw [hu] at hok; simp [Except.map] at hok
  | ok c =>
    rw [hu] at hok
    simp [Except.map] at hok
    obtain ⟨h1, h2⟩ := unwrap_ok_dims_aux F r img rotation_offset c hu
    rw [← hok]
    exact ⟨h1, h2⟩

set_option maxRecDepth 1000000 in
/-- Witness for C5: a successful concrete run of `unwrap` at resolution
2 whose canvas has height 5 and width 12. -/
theorem unwrap_canvas_dims_witness :
    ((5 : ℕ) : ℤ) = pyInt (2 * ((mkSampler F0 2).pentagon_h : ℚ) + (mkSampler F0 2).h) ∧
    ((12 : ℕ) : ℤ) = pyInt (3 * (((mkSampler F0 2).pentagon_l : ℚ) + ((2 : ℤ) : ℚ)) + (mkSampler F0 2).l) :=
  unwrap_canvas_dims F0 2 img0 0 (5, 12) (by rfl)

/-- Claim C4: for a valid panorama, a face index in 0–11 and any
rotation offset, every sample index produced by `get_face_rgb` (row
after `astype(int) % height`, column after `astype(int) % width`) lies
inside the panorama bounds. -/
theorem face_sampling_in_bounds (F : FloatOps) (r : ℤ) (img : EqImage)
    (rotation_offset : ℚ) (face_no : ℤ) (idxs : List (ℤ × ℤ))
    (_hface : 0 ≤ face_no ∧ face_no < 12)
    (hok : get_face_sample_indices F (mkSampler F r) face_no img rotation_offset = Except.ok idxs) :
    idxs.all (fun p =>
      decide (0 ≤ p.1 ∧ p.1 < (img.height : ℤ) ∧ 0 ≤ p.2 ∧ p.2 < (img.width : ℤ))) = true := by
  unfold get_face_sample_indices at hok
  obtain ⟨u, hchk, hok⟩ := except_ok_of_bind hok
  obtain ⟨hh, hw⟩ := check_eq_image_shape_ok hchk
  obtain ⟨xyz, hxyz, hok⟩ := except_ok_of_bind hok
  simp at hok
  have hH : (0 : ℤ) < (img.height : ℤ) := by exact_mod_cast hh
  have hW : (0 : ℤ) < (img.width : ℤ) := by
    have : 0 < img.width := by omega
    exact_mod_cast this
  rw [List.all_eq_true]
  intro p hp
  rw [← hok] at hp
  obtain ⟨a, ha, hpa⟩ := List.mem_map.mp hp
  rw [← hpa]
  refine decide_eq_true ?_
  exact ⟨Int.emod_nonneg _ (ne_of_gt hH), Int.emod_lt_of_pos _ hH,
         Int.emod_nonneg _ (ne_of_gt hW), Int.emod_lt_of_pos _ hW⟩


set_option maxRecDepth 100000 in
/-- Witness for C4 at face 0 of the concrete sampler. -/
theorem face_sampling_in_bounds_witness :
    c4idxs.all (fun p =>
      decide (0 ≤ p.1 ∧ p.1 < (img0.height : ℤ) ∧ 0 ≤ p.2 ∧ p.2 < (img0.width : ℤ))) = true :=
  face_sampling_in_bounds F0 2 img0 0 0 c4idxs (by decide) (by rfl)


/-- Claim C2 (amended): for every face index outside 0–11, the per-face
operations (`get_face_xyz`, `get_face_rgb`, `get_face_image`) fail and
never produce a result; the error class is `IndexError` exactly when the
index is ≥ 12 or < −12, while for −12 ≤ index ≤ −1 the face-table
lookup wraps and the failure is the `UnboundLocalError` from
`get_rotation` (given a valid panorama and the nonnegative pentagon
dimensions every real construction produces). -/
theorem invalid_face_fails (F : FloatOps) (r : ℤ) (img : EqImage)
    (rotation_offset : ℚ) (n : ℤ)
    (hout : n < 0 ∨ 12 ≤ n)
    (hpent : 0 ≤ (mkSampler F r).pentagon_h ∧ 0 ≤ (mkSampler F r).pentagon_l)
    (himg : check_eq_image_shape img = Except.ok ()) :
    get_face_xyz F (mkSampler F r) n = Except.error (invalid_face_err n) ∧
    get_face_rgb F (mkSampler F r) n img rotation_offset = Except.error (invalid_face_err n) ∧
    get_face_image F (mkSampler F r) n img rotation_offset = Except.error (invalid_face_err n) := by
  have hfaces : (mkSampler F r).faces = facesTable := rfl
  have hlen : ((mkSampler F r).faces.length : ℤ) = 12 := rfl
  have hxyz : get_face_xyz F (mkSampler F r) n = Except.error (invalid_face_err n) := by
    by_cases hin : -12 ≤ n ∧ n < 12
    · -- the face-table lookup wraps; `get_rotation` raises UnboundLocalError
      have hn0 : n < 0 := by
        rcases hout with h | h
        · exact h
        · omega
      have hrow : npIndexRow (mkSampler F r).faces n =
          Except.ok ((mkSampler F r).faces.getD (n + (mkSampler F r).faces.length).toNat []) := by
        unfold npIndexRow
        rw [if_neg (by omega), if_pos (by constructor <;> omega)]
      have hraw : pentagonCoordsRaw (mkSampler F r) (get_is_up n) =
          Except.ok (pentagonMask (mkSampler F r) (get_is_up n)) := by
        unfold pentagonCoordsRaw
        rw [if_pos hpent]
      have hrot : get_rotation F n = Except.error PyErr.unboundLocalError := by
        unfold get_rotation
        rw [if_neg (by omega), if_neg (by omega), if_neg (by omega)]
      unfold get_face_xyz
      rw [hrow, pyBind_ok]
      unfold get_pentagon_coords
      rw [hraw]
      simp [hrot, invalid_face_err, hin]
    · -- the numpy lookup itself raises IndexError
      have hrow : npIndexRow (mkSampler F r).faces n = Except.error PyErr.indexError := by
        unfold npIndexRow
        rw [if_neg (by omega), if_neg (by omega)]
      unfold get_face_xyz
      rw [hrow]
      simp [invalid_face_err, hin]
  refine ⟨hxyz, ?_, ?_⟩
  · unfold get_face_rgb get_face_sample_indices
    rw [himg]
    simp [hxyz]
  · unfold get_face_image get_face_rgb get_face_sample_indices
    rw [himg]
    simp [hxyz]

/-- Counterexample to C2 as stated: at face index −1 (outside 0–11),
`get_face_xyz` fails with `UnboundLocalError`, which is not an
IndexError-class exception — the face-table lookup `faces[-1]` wraps
silently and `get_rotation` then reads an unassigned local. -/
theorem invalid_face_counterexample :
    get_face_xyz F0 s0 (-1) = Except.error PyErr.unboundLocalError ∧
    PyErr.unboundLocalError ≠ PyErr.indexError :=
  ⟨rfl, by decide⟩

set_option maxRecDepth 100000 in
/-- Witness for the amended C2 at face index 13. -/
theorem invalid_face_fails_witness :
    get_face_xyz F0 (mkSampler F0 2) 13 = Except.error (invalid_face_err 13) ∧
    get_face_rgb F0 (mkSampler F0 2) 13 img0 0 = Except.error (invalid_face_err 13) ∧
    get_face_image F0 (mkSampler F0 2) 13 img0 0 = Except.error (invalid_face_err 13) :=
  invalid_face_fails F0 2 img0 0 13 (Or.inr (by decide)) (by decide) (by rfl)


/-- Claim C7: projection/render calls are deterministic and leave no
hidden mutable state — an arbitrary sequence of prior method calls
leaves the freshly constructed sampler unchanged, and a call after such
a sequence returns exactly what it returns on the fresh sampler
(identical inputs always give identical outputs). -/
theorem projection_deterministic (F : FloatOps) (r : ℤ)
    (cs : List OpCall) (c : OpCall) :
    runOps F (mkSampler F r) cs = mkSampler F r ∧
    runOp F (runOps F (mkSampler F r) cs) c = runOp F (mkSampler F r) c := by
  have hfix : ∀ (s : Sampler) (l : List OpCall), runOps F s l = s := by
    intro s l
    induction l generalizing s with
    | nil => rfl
    | cons a t ih =>
      show (t.foldl (fun s c => (applyOp F s c).2) ((applyOp F s a).2)) = s
      exact ih s
  exact ⟨hfix _ _, by rw [hfix]⟩


/-- Claim C8: the panorama is read-only under the whole pipeline — no
in-place array assignment of any operation targets the panorama buffer,
and every assignment targets a buffer freshly allocated by the
operation itself. -/
theorem panorama_read_only :
    Buf.pano ∉ face_rgb_write_trace ∧
    Buf.pano ∉ face_image_write_trace ∧
    Buf.pano ∉ unwrap_write_trace ∧
    Buf.pano ∉ half_unwrap_write_trace ∧
    Buf.pano ∉ a4_write_trace ∧
    (face_rgb_write_trace.all (fun b => decide (b ∈ fresh_bufs))) = true ∧
    (face_image_write_trace.all (fun b => decide (b ∈ fresh_bufs))) = true ∧
    (unwrap_write_trace.all (fun b => decide (b ∈ fresh_bufs))) = true ∧
    (half_unwrap_write_trace.all (fun b => decide (b ∈ fresh_bufs))) = true ∧
    (a4_write_trace.all (fun b => decide (b ∈ fresh_bufs))) = true := by
  decide
